import Mathlib

/-!
Verification of the SeleniumProjects scraping pipeline.

We give a shallow embedding of the two Python scripts
(`get_product_details.py`, the multi-worker pipeline, and
`add_urls_to_db.py`, which also embeds a single-browser scraping script)
and prove properties of the embedded functions.

A rendered page is modelled as a query interface: `find` models
`driver.find_element` (returning `none` where the Python call raises
`NoSuchElementException`) and `findAll` models `driver.find_elements`
(which returns a possibly empty list).  An element carries its `text`
property and the attributes the scripts read (`innerText`, `textContent`,
`content`), each `Option String` since `get_attribute` may return `None`.

Waits are modelled by a clock: a scraping session sees the page as a
function `Nat → PageView`; each sleep inside the extraction phase of
`scrape_one` advances the clock by one, so a re-query after a wait reads
a possibly different view.

The SQLite `products` table is modelled as a list of rows in insertion
order; SQL `NULL` is `Option.none`.  Note that a Python empty string is
stored as the SQL text value, not as `NULL`.
-/

/-- Locator kinds used by the scripts (`By.ID`, `By.CSS_SELECTOR`, `By.XPATH`). -/
inductive By where
  | id : By
  | css : By
  | xpath : By
deriving DecidableEq, Repr

/-- A DOM element as seen through the WebDriver calls the scripts make. -/
structure Element where
  text : String
  innerText : Option String
  textContent : Option String
  content : Option String
deriving DecidableEq, Repr

/-- A rendered page: `find` models `find_element` (`none` = `NoSuchElementException`),
`findAll` models `find_elements`. -/
structure PageView where
  find : By → String → Option Element
  findAll : By → String → List Element

/-- Python `s.strip()`: drop leading and trailing whitespace. -/
def pyStrip (s : String) : String :=
  ⟨((s.data.dropWhile Char.isWhitespace).reverse.dropWhile Char.isWhitespace).reverse⟩

/-- Python `a or b` on an optional string and a string default:
`None` and `""` are falsy. -/
def attrOr (a : Option String) (b : String) : String :=
  match a with
  | none => b
  | some s => if s = "" then b else s

/-- `try_find` (identical in both scripts): return the element's stripped
text, falling back to `innerText`/`textContent` when the direct text is
empty, and the empty string when the element is absent. -/
def try_find (page : PageView) (b : By) (value : String) : String :=
  match page.find b value with
  | none => ""
  | some el =>
    let text := pyStrip el.text
    if text = "" then pyStrip (attrOr el.innerText (attrOr el.textContent ""))
    else text

/-- `any(ch.isdigit() for ch in txt)`. -/
def hasDigit (s : String) : Bool :=
  s.data.any (fun c => c.isDigit)

/-- The maximal whitespace-free runs of a character list, accumulator form:
the embedding of Python `txt.split()`. -/
def wordsAux (cur : List Char) : List Char → List (List Char)
  | [] => if cur.isEmpty then [] else [cur.reverse]
  | c :: cs =>
    if c.isWhitespace then
      if cur.isEmpty then wordsAux [] cs else cur.reverse :: wordsAux [] cs
    else wordsAux (c :: cur) cs

/-- Join words with single spaces: the embedding of `" ".join(...)`. -/
def joinWords : List (List Char) → List Char
  | [] => []
  | [w] => w
  | w :: ws => w ++ ' ' :: joinWords ws

/-- `" ".join(txt.split())`: collapse internal whitespace runs to single
spaces and drop leading/trailing whitespace. -/
def normalizeWs (s : String) : String :=
  ⟨joinWords (wordsAux [] s.data)⟩

/-- The title selector cascade (identical in both scripts). -/
def title_selectors : List (By × String) :=
  [ (By.id, "productTitle"),
    (By.css, "#titleSection #productTitle"),
    (By.css, "span#title"),
    (By.css, "h1.a-size-large.a-spacing-none"),
    (By.css, "h1") ]

/-- First selector yielding non-empty `try_find` text wins. -/
def firstNonEmpty (page : PageView) : List (By × String) → String
  | [] => ""
  | (b, s) :: rest =>
    let t := try_find page b s
    if t = "" then firstNonEmpty page rest else t

/-- `extract_title` (identical in both scripts). -/
def extract_title (page : PageView) : String :=
  firstNonEmpty page title_selectors

/-- The price selector cascade (identical in both scripts). -/
def price_selectors : List (By × String) :=
  [ (By.id, "priceblock_ourprice"),
    (By.id, "priceblock_dealprice"),
    (By.id, "priceblock_saleprice"),
    (By.id, "tp_price_block_total_price_ww"),
    (By.css, "span.a-price > span.a-offscreen"),
    (By.css, "span#price_inside_buybox"),
    (By.css, "div#corePriceDisplay_desktop_feature_div span.a-offscreen"),
    (By.css, "div.a-section.a-spacing-none.aok-align-center span.a-price-whole"),
    (By.css, "span.offer-price"),
    (By.css, "span.priceToPay > span") ]

/-- Text of a candidate in the `span.a-offscreen` fallback loop:
`(o.get_attribute("innerText") or o.text or "").strip()`. -/
def offscreenText (el : Element) : String :=
  pyStrip (attrOr el.innerText el.text)

/-- The `span.a-offscreen` fallback: first candidate with non-empty text
containing a digit. -/
def offscreenLoop : List Element → String
  | [] => ""
  | o :: rest =>
    let txt := offscreenText o
    if txt ≠ "" && hasDigit txt then txt else offscreenLoop rest

/-- The primary price loop of `extract_price`: for each selector, take the
`try_find` text; if non-empty, collapse whitespace and accept when it
contains a digit; otherwise fall through.  After the list is exhausted,
run the `span.a-offscreen` fallback. -/
def priceSelLoop (page : PageView) : List (By × String) → String
  | [] => offscreenLoop (page.findAll By.css "span.a-offscreen")
  | (b, s) :: rest =>
    let txt := try_find page b s
    if txt = "" then priceSelLoop page rest
    else
      let txt2 := normalizeWs txt
      if hasDigit txt2 then txt2 else priceSelLoop page rest

/-- `extract_price` (identical in both scripts). -/
def extract_price (page : PageView) : String :=
  priceSelLoop page price_selectors

/-- Discount selector cascade of `get_product_details.py`. -/
def discount_selectors : List (By × String) :=
  [ (By.css, "span.savingsPercentage"),
    (By.css, "td.a-span12.a-color-price.a-size-base"),
    (By.css, "div#corePriceDisplay_desktop_feature_div tr:nth-child(3) td.a-span12") ]

/-- Discount loop of `get_product_details.py`: first non-empty `try_find`
text wins, with whitespace collapsed; no digit check, no further
normalization. -/
def discountLoop (page : PageView) : List (By × String) → String
  | [] => ""
  | (b, s) :: rest =>
    let txt := try_find page b s
    if txt = "" then discountLoop page rest else normalizeWs txt

/-- `extract_discount` of `get_product_details.py`. -/
def extract_discount (page : PageView) : String :=
  discountLoop page discount_selectors

/-- `txt.replace("-", "").replace("(", "").replace(")", "").strip()`:
successive `replace`s with empty replacement delete every occurrence,
so the net effect is filtering those characters out, then stripping. -/
def stripParensMinus (s : String) : String :=
  pyStrip ⟨s.data.filter (fun c => c ≠ '-' && c ≠ '(' && c ≠ ')')⟩

/-- The XPath used for the metadata price fallback. -/
def meta_price_xpath : String :=
  "//meta[contains(@property,\x27price\x27) or contains(@name,\x27price\x27)]"

/-- The meta-tag price fallback shared by both `scrape_one`s: first meta
element whose stripped `content` attribute is non-empty and contains a
digit. -/
def metaLoop : List Element → String
  | [] => ""
  | m :: rest =>
    let val := pyStrip (attrOr m.content "")
    if val ≠ "" && hasDigit val then val else metaLoop rest

/-- One scrape result of `get_product_details.scrape_one` (the Python dict
with keys `link`, `product_name`, `Price`, `discount`, `error`). -/
structure ResultGP where
  link : String
  product_name : String
  Price : String
  discount : String
  error : String
deriving DecidableEq, Repr

/-- The generic extraction-gap message of both scripts. -/
def fieldsNotFoundMsg : String :=
  "Could not find title or price. Page layout may be unexpected."

/-- The extraction phase of `get_product_details.scrape_one` after a
successful navigation.  The clock: title, price, discount and the meta
fallback all read view 0; the single lazy-load retry of the price reads
view 1 (after `time.sleep(1.0)`).  Discount is extracted exactly once. -/
def scrapeBody (url : String) (page : Nat → PageView) : ResultGP :=
  let title := extract_title (page 0)
  let price0 := extract_price (page 0)
  let discount := extract_discount (page 0)
  let price1 := if price0 = "" then metaLoop ((page 0).findAll By.xpath meta_price_xpath) else price0
  let price2 := if price1 = "" then extract_price (page 1) else price1
  { link := url, product_name := title, Price := price2, discount := discount,
    error := if title = "" && price2 = "" then fieldsNotFoundMsg else "" }

/-- `get_product_details.scrape_one`.  `nav1` is `some e` when the first
`driver.get` raises a `TimeoutException`/`WebDriverException` with message
`e`; `nav2` likewise for the retried `driver.get` after `time.sleep(3)`.
When both fail, the result carries both messages and no extraction runs. -/
def scrape_one (url : String) (nav1 nav2 : Option String) (page : Nat → PageView) : ResultGP :=
  match nav1 with
  | none => scrapeBody url page
  | some e =>
    match nav2 with
    | none => scrapeBody url page
    | some e2 =>
      { link := url, product_name := "", Price := "", discount := "",
        error := "Page load failed on retry: " ++ e2 ++ " (original error: " ++ e ++ ")" }

namespace AddUrls

/-- Discount selector cascade of the script embedded in `add_urls_to_db.py`. -/
def discount_selectors : List (By × String) :=
  [ (By.css, "span.savingsPercentage"),
    (By.css, ".reinventPriceSavingsPercentageMargin"),
    (By.css, "td.a-span12.a-color-price.a-size-base span[aria-hidden=\x27true\x27]") ]

/-- Discount loop of `add_urls_to_db.py`: a candidate is accepted when it
is non-empty and contains a percent sign or a digit; every minus sign and
parenthesis is then deleted and the result stripped. -/
def discountLoop (page : PageView) : List (By × String) → String
  | [] => ""
  | (b, s) :: rest =>
    let txt := try_find page b s
    if txt ≠ "" && (txt.data.contains '%' || hasDigit txt) then stripParensMinus txt
    else discountLoop page rest

/-- `extract_discount` of `add_urls_to_db.py`. -/
def extract_discount (page : PageView) : String :=
  discountLoop page discount_selectors

/-- One scrape result of the `add_urls_to_db.py` embedded script. -/
structure ResultAU where
  url : String
  title : String
  price : String
  discount : String
  error : String
deriving DecidableEq, Repr

/-- The price after the meta fallback, and the clock after the optional
lazy-load sleep: `1` exactly when a `time.sleep(1.0)` ran before the price
re-check. -/
def pricePhase (page : Nat → PageView) : String × Nat :=
  let price0 := extract_price (page 0)
  let price1 := if price0 = "" then metaLoop ((page 0).findAll By.xpath meta_price_xpath) else price0
  let c : Nat := if price1 = "" then 1 else 0
  (if price1 = "" then extract_price (page c) else price1, c)

/-- The extraction phase of `add_urls_to_db.scrape_one` after a successful
navigation: like `scrapeBody`, but when the first discount pass comes back
empty a `time.sleep(0.5)` advances the clock once more and the discount
cascade is retried exactly once. -/
def scrapeBody (url : String) (page : Nat → PageView) : ResultAU :=
  let title := extract_title (page 0)
  let discount0 := extract_discount (page 0)
  let pc := pricePhase page
  let discount1 := if discount0 = "" then extract_discount (page (pc.2 + 1)) else discount0
  { url := url, title := title, price := pc.1, discount := discount1,
    error := if title = "" && pc.1 = "" then fieldsNotFoundMsg else "" }

end AddUrls

/-- One row of the SQLite `products` table created by `setup_database`
(`link TEXT PRIMARY KEY, product_name, price, discount, error TEXT,
scraped_at TIMESTAMP`); SQL `NULL` is `none`, the timestamp is abstracted
to a `Nat`.  The store is a `List Row` in insertion order. -/
structure Row where
  link : String
  product_name : Option String
  price : Option String
  discount : Option String
  error : Option String
  scraped_at : Option Nat
deriving DecidableEq, Repr

/-- The column list of the `products` table, in declaration order. -/
def products_columns : List String :=
  ["link", "product_name", "price", "discount", "error", "scraped_at"]

/-- The SQL pending predicate of `load_urls_from_db`:
`product_name IS NULL OR error IS NOT NULL`. -/
def pendingB (r : Row) : Bool :=
  r.product_name.isNone || r.error.isSome

/-- The row set selected by `load_urls_from_db`'s query. -/
def select_pending (db : List Row) : List Row :=
  db.filter pendingB

/-- `load_urls_from_db` (minus the empty-set `sys.exit`): the `link` column
of the rows matching the pending predicate. -/
def load_urls_from_db (db : List Row) : List String :=
  (select_pending db).map (fun r => r.link)

/-- `update_db_record`: `UPDATE products SET product_name = ?, price = ?,
discount = ?, error = ?, scraped_at = CURRENT_TIMESTAMP WHERE link = ?`.
Every bound parameter is a Python string from the result dict, so each
lands in SQL as a (possibly empty) text value, never `NULL`. -/
def update_db_record (db : List Row) (result : ResultGP) (now : Nat) : List Row :=
  db.map (fun r =>
    if r.link = result.link then
      { r with product_name := some result.product_name, price := some result.Price,
               discount := some result.discount, error := some result.error,
               scraped_at := some now }
    else r)

/-- A fresh row as inserted by `INSERT OR IGNORE INTO products (link) VALUES (?)`:
every other column is `NULL`. -/
def blankRow (u : String) : Row :=
  { link := u, product_name := none, price := none, discount := none,
    error := none, scraped_at := none }

/-- One `INSERT OR IGNORE` statement: a duplicate of the `link` primary key
is silently skipped, otherwise a blank row is appended. -/
def insert_or_ignore (db : List Row) (u : String) : List Row :=
  if db.any (fun r => r.link = u) then db else db ++ [blankRow u]

/-- The insertion loop of `add_urls_to_database`. -/
def add_urls_to_database (db : List Row) (urls : List String) : List Row :=
  urls.foldl insert_or_ignore db

/-- One CSV data row of `export_db_to_csv`: `SELECT *` yields every column
of the row in table order. -/
def rowToCsv (r : Row) : List (Option String) :=
  [some r.link, r.product_name, r.price, r.discount, r.error,
   r.scraped_at.map (fun t => toString t)]

/-- `export_db_to_csv`: `pd.read_sql_query("SELECT * FROM products")`
followed by `to_csv(index=False)` — the header is the full column list of
the table and there is one data row per stored record, in store order. -/
def export_db_to_csv (db : List Row) : List String × List (List (Option String)) :=
  (products_columns, db.map rowToCsv)

/-- `process_url` for one URL: `try: result = scrape_one(...); update_db_record(result)
except Exception as e: update_db_record({...,"error": str(e)}) finally: driver.quit()`.
The argument `outcome` is what the `try` block's scrape produced: `.ok r`
when `scrape_one` returned `r`, `.error e` when an unexpected exception
with description `e` escaped it.  The value is `((db after writes, driver
quit ran), exception escaping the worker invocation)`; the last component
is what a sibling-aborting propagation would carry. -/
def process_url (url : String) (db : List Row) (outcome : Except String ResultGP)
    (now : Nat) : (List Row × Bool) × Option String :=
  match outcome with
  | .ok r => ((update_db_record db r now, true), none)
  | .error e =>
    ((update_db_record db
        { link := url, product_name := "", Price := "", discount := "", error := e } now,
      true), none)

/-! ## Concrete fixtures used to evaluate the development -/

/-- A page on which every single-element lookup finds the text `abc`
(purely alphabetic, no digits). -/
def pageAbc : PageView :=
  { find := fun _ _ => some { text := "abc", innerText := none, textContent := none, content := none },
    findAll := fun _ _ => [] }

/-- A page with a title element `Widget` and a price element `$9.99` and
nothing else: a fully successful scrape. -/
def pageWidget : PageView :=
  { find := fun _ s =>
      if s = "productTitle" then
        some { text := "Widget", innerText := none, textContent := none, content := none }
      else if s = "priceblock_ourprice" then
        some { text := "$9.99", innerText := none, textContent := none, content := none }
      else none,
    findAll := fun _ _ => [] }

/-- A page whose only discount element carries the text `(-30%)`. -/
def pageDisc : PageView :=
  { find := fun _ s =>
      if s = "span.savingsPercentage" then
        some { text := "(-30%)", innerText := none, textContent := none, content := none }
      else none,
    findAll := fun _ _ => [] }

/-- A stored row that has a title and a recorded failure. -/
def rowErr : Row :=
  { link := "u1", product_name := some "t", price := none, discount := none,
    error := some "boom", scraped_at := none }

/-- A worker result for the link `b`. -/
def resB : ResultGP :=
  { link := "b", product_name := "T", Price := "$1", discount := "", error := "" }

/-! ## Helper lemmas -/

/-- Every character of a word produced by `wordsAux` comes from the
accumulator or the remaining input. -/
theorem wordsAux_mem : ∀ (cs cur w : List Char), w ∈ wordsAux cur cs →
    ∀ c ∈ w, c ∈ cur ∨ c ∈ cs
  | [], cur, w, hw, c, hc => by
    simp only [wordsAux] at hw
    split at hw
    · exact absurd hw (List.not_mem_nil w)
    · rw [List.mem_singleton] at hw
      subst hw
      exact Or.inl (List.mem_reverse.1 hc)
  | d :: cs, cur, w, hw, c, hc => by
    simp only [wordsAux] at hw
    split at hw
    · split at hw
      · rcases wordsAux_mem cs [] w hw c hc with h | h
        · exact absurd h (List.not_mem_nil c)
        · exact Or.inr (List.mem_cons_of_mem d h)
      · rcases List.mem_cons.1 hw with h | h
        · subst h
          exact Or.inl (List.mem_reverse.1 hc)
        · rcases wordsAux_mem cs [] w h c hc with h2 | h2
          · exact absurd h2 (List.not_mem_nil c)
          · exact Or.inr (List.mem_cons_of_mem d h2)
    · rcases wordsAux_mem cs (d :: cur) w hw c hc with h | h
      · rcases List.mem_cons.1 h with h2 | h2
        · subst h2
          exact Or.inr (List.mem_cons_self c cs)
        · exact Or.inl h2
      · exact Or.inr (List.mem_cons_of_mem d h)

/-- Every character of `joinWords ws` is a space or comes from a word. -/
theorem joinWords_mem : ∀ (ws : List (List Char)) (c : Char), c ∈ joinWords ws →
    c = ' ' ∨ ∃ w ∈ ws, c ∈ w
  | [], c, h => absurd h (List.not_mem_nil c)
  | [w], c, h => by
    simp only [joinWords] at h
    exact Or.inr ⟨w, List.mem_singleton.2 rfl, h⟩
  | w :: w2 :: ws, c, h => by
    simp only [joinWords] at h
    rcases List.mem_append.1 h with h1 | h1
    · exact Or.inr ⟨w, List.mem_cons_self w _, h1⟩
    · rcases List.mem_cons.1 h1 with h2 | h2
      · exact Or.inl h2
      · rcases joinWords_mem (w2 :: ws) c h2 with h3 | ⟨w3, hw3, hc3⟩
        · exact Or.inl h3
        · exact Or.inr ⟨w3, List.mem_cons_of_mem w hw3, hc3⟩

/-- Whitespace collapsing introduces no characters other than spaces. -/
theorem mem_normalizeWs (s : String) (c : Char) (h : c ∈ (normalizeWs s).data) :
    c = ' ' ∨ c ∈ s.data := by
  rcases joinWords_mem (wordsAux [] s.data) c h with h1 | ⟨w, hw, hc⟩
  · exact Or.inl h1
  · rcases wordsAux_mem s.data [] w hw c hc with h2 | h2
    · exact absurd h2 (List.not_mem_nil c)
    · exact Or.inr h2

/-- Whitespace collapsing cannot create a digit. -/
theorem hasDigit_normalizeWs (s : String) (h : hasDigit s = false) :
    hasDigit (normalizeWs s) = false := by
  rw [hasDigit, List.any_eq_false] at h ⊢
  intro c hc
  rcases mem_normalizeWs s c hc with h1 | h1
  · subst h1
    decide
  · exact h c h1

/-- One-step unfolding of the primary price loop. -/
theorem priceSelLoop_cons (page : PageView) (b : By) (s : String)
    (rest : List (By × String)) :
    priceSelLoop page ((b, s) :: rest) =
      (if try_find page b s = "" then priceSelLoop page rest
       else if hasDigit (normalizeWs (try_find page b s)) then normalizeWs (try_find page b s)
       else priceSelLoop page rest) := rfl

/-- One-step unfolding of the discount loop of `get_product_details.py`. -/
theorem discountLoop_cons (page : PageView) (b : By) (s : String)
    (rest : List (By × String)) :
    discountLoop page ((b, s) :: rest) =
      (if try_find page b s = "" then discountLoop page rest
       else normalizeWs (try_find page b s)) := rfl

/-- One-step unfolding of the discount loop of `add_urls_to_db.py`. -/
theorem AddUrls.discount_step (page : PageView) (b : By) (s : String)
    (rest : List (By × String)) :
    AddUrls.discountLoop page ((b, s) :: rest) =
      (if try_find page b s ≠ "" && ((try_find page b s).data.contains '%' || hasDigit (try_find page b s))
       then stripParensMinus (try_find page b s)
       else AddUrls.discountLoop page rest) := rfl

/-! ## Claims -/

/-- C10: a single-element lookup is total over element presence: when the
element is absent `try_find` returns the empty string (the code catches
`NoSuchElementException`), and when present it returns the element's
trimmed text, falling back to the trimmed `innerText`/`textContent`
attributes when the direct text is empty. -/
theorem try_find_total (page : PageView) (b : By) (v : String) :
    (page.find b v = none → try_find page b v = "") ∧
    (∀ el, page.find b v = some el →
      try_find page b v =
        (if pyStrip el.text = "" then pyStrip (attrOr el.innerText (attrOr el.textContent ""))
         else pyStrip el.text)) := by
  constructor
  · intro h
    simp [try_find, h]
  · intro el h
    simp only [try_find, h]

/-- Witness for C10 at a concrete absent element and a concrete present
element. -/
theorem try_find_total_witness :
    try_find { find := fun _ _ => none, findAll := fun _ _ => [] } By.id "x" = "" ∧
    try_find pageAbc By.id "x" = "abc" :=
  ⟨(try_find_total { find := fun _ _ => none, findAll := fun _ _ => [] } By.id "x").1 rfl,
   ((try_find_total pageAbc By.id "x").2
      { text := "abc", innerText := none, textContent := none, content := none } rfl).trans
     (by decide)⟩

/-- C7: in the primary price cascade a candidate text is whitespace-collapsed
and accepted only if it contains at least one digit; a candidate with no
digit (in particular a purely alphabetic one) is not returned and the loop
proceeds to the next strategy in order. -/
theorem price_digit_filter (page : PageView) (b : By) (s : String)
    (rest : List (By × String)) :
    (hasDigit (try_find page b s) = false →
      priceSelLoop page ((b, s) :: rest) = priceSelLoop page rest) ∧
    (try_find page b s ≠ "" → hasDigit (normalizeWs (try_find page b s)) = true →
      priceSelLoop page ((b, s) :: rest) = normalizeWs (try_find page b s)) := by
  constructor
  · intro h
    rw [priceSelLoop_cons]
    by_cases he : try_find page b s = ""
    · rw [if_pos he]
    · rw [if_neg he, hasDigit_normalizeWs _ h]
      simp
  · intro he hd
    rw [priceSelLoop_cons, if_neg he, hd]
    simp

/-- Witness for C7: on a page whose elements all read `abc`, the first
strategy is skipped and the cascade continues. -/
theorem price_digit_filter_witness :
    hasDigit (try_find pageAbc By.id "p") = false ∧
    priceSelLoop pageAbc [(By.id, "p")] = priceSelLoop pageAbc [] :=
  ⟨by decide, (price_digit_filter pageAbc By.id "p" []).1 (by decide)⟩

/-- C5: navigation is retried exactly once — if the first `driver.get`
succeeds the body runs regardless of the second attempt, if only the first
fails the body still runs after the single retry, and if both attempts
fail the worker returns a record with empty title, price and discount
whose error contains both the retry and the original failure messages,
without consulting the page at all (no extraction is attempted). -/
theorem nav_retry_once (url e e2 : String) (page page2 : Nat → PageView) :
    scrape_one url none none page = scrapeBody url page ∧
    scrape_one url (some e) none page = scrapeBody url page ∧
    scrape_one url (some e) (some e2) page =
      { link := url, product_name := "", Price := "", discount := "",
        error := "Page load failed on retry: " ++ e2 ++ " (original error: " ++ e ++ ")" } ∧
    scrape_one url (some e) (some e2) page = scrape_one url (some e) (some e2) page2 ∧
    e.data <:+: (scrape_one url (some e) (some e2) page).error.data ∧
    e2.data <:+: (scrape_one url (some e) (some e2) page).error.data := by
  refine ⟨rfl, rfl, rfl, rfl, ?_, ?_⟩
  · refine ⟨("Page load failed on retry: " ++ e2 ++ " (original error: ").data, ")".data, ?_⟩
    simp [scrape_one]
  · refine ⟨("Page load failed on retry: ").data, (" (original error: " ++ e ++ ")").data, ?_⟩
    simp [scrape_one]

/-- C9: `update_db_record` touches at most the rows whose `link` equals the
result's `link`: the store keeps its length, every row with a different
`link` is unchanged in place, and when no row matches the whole store is
unchanged — a silent no-op, never an insert or an error. -/
theorem update_db_record_frame (db : List Row) (result : ResultGP) (now : Nat) :
    (update_db_record db result now).length = db.length ∧
    (∀ (i : Nat) (h : i < db.length), (db.get ⟨i, h⟩).link ≠ result.link →
      (update_db_record db result now)[i]? = some (db.get ⟨i, h⟩)) ∧
    ((∀ r ∈ db, r.link ≠ result.link) → update_db_record db result now = db) := by
  refine ⟨by simp [update_db_record], ?_, ?_⟩
  · intro i h hne
    rw [update_db_record, List.getElem?_map, List.getElem?_eq_getElem h]
    rw [List.get_eq_getElem] at hne
    simp only [Option.map_some', if_neg hne]
    rw [List.get_eq_getElem]
  · intro hall
    rw [update_db_record]
    have hcong : ∀ r ∈ db,
        (if r.link = result.link then
          { r with product_name := some result.product_name, price := some result.Price,
                   discount := some result.discount, error := some result.error,
                   scraped_at := some now }
         else r) = id r := by
      intro r hr
      rw [if_neg (hall r hr)]
      rfl
    rw [List.map_congr_left hcong, List.map_id]

/-- Witness for C9: updating a store that has no row for the result's link
leaves it unchanged. -/
theorem update_db_record_frame_witness :
    update_db_record [blankRow "a"] resB 3 = [blankRow "a"] :=
  (update_db_record_frame [blankRow "a"] resB 3).2.2 (by decide)

/-- C8: for every outcome of the guarded block — a returned scrape result
or an unexpected exception — `process_url` runs the driver teardown, lets
no exception escape the worker invocation (so siblings are unaffected),
writes the scrape result to the store on success, and on an exception
writes a record with empty fields whose error is the exception's
description. -/
theorem process_url_boundary (url : String) (db : List Row) (now : Nat)
    (outcome : Except String ResultGP) :
    (process_url url db outcome now).2 = none ∧
    (process_url url db outcome now).1.2 = true ∧
    (∀ r, outcome = Except.ok r →
      (process_url url db outcome now).1.1 = update_db_record db r now) ∧
    (∀ e, outcome = Except.error e →
      (process_url url db outcome now).1.1 =
        update_db_record db
          { link := url, product_name := "", Price := "", discount := "", error := e } now) := by
  cases outcome with
  | ok r =>
    refine ⟨rfl, rfl, ?_, ?_⟩
    · intro r2 h
      cases h
      rfl
    · intro e h
      cases h
  | error e =>
    refine ⟨rfl, rfl, ?_, ?_⟩
    · intro r2 h
      cases h
    · intro e2 h
      cases h
      rfl

/-- Witness for C8: a crashing scrape of link `u1` still quits the driver,
escapes nothing, and stores the exception text. -/
theorem process_url_boundary_witness :
    (process_url "u1" [blankRow "u1"] (Except.error "boom") 7).1.1 =
      update_db_record [blankRow "u1"]
        { link := "u1", product_name := "", Price := "", discount := "", error := "boom" } 7 :=
  (process_url_boundary "u1" [blankRow "u1"] 7 (Except.error "boom")).2.2.2 "boom" rfl

/-- C2: the pending selection of `load_urls_from_db` returns exactly the
rows whose `product_name` is NULL or whose `error` is not NULL: a row with
NULL error and non-NULL title is excluded (successful rows are not
re-visited) and every row with a non-NULL error is included (failed rows
are retried on the next run); the loaded URLs are the `link` column of
that selection. -/
theorem select_pending_spec (db : List Row) (r : Row) (hr : r ∈ db) :
    (r ∈ select_pending db ↔ (r.product_name = none ∨ r.error ≠ none)) ∧
    (r.error = none → r.product_name ≠ none → r ∉ select_pending db) ∧
    (r.error ≠ none → r ∈ select_pending db) ∧
    load_urls_from_db db = (select_pending db).map (fun x => x.link) := by
  have hiff : r ∈ select_pending db ↔ (r.product_name = none ∨ r.error ≠ none) := by
    rw [select_pending, List.mem_filter]
    simp [pendingB, hr, Option.isNone_iff_eq_none, Option.isSome_iff_ne_none]
  refine ⟨hiff, ?_, ?_, rfl⟩
  · intro he ht hmem
    rcases hiff.1 hmem with h | h
    · exact ht h
    · exact h he
  · intro he
    exact hiff.2 (Or.inr he)

/-- Witness for C2: a row with a title and a recorded error is selected
for the next run. -/
theorem select_pending_spec_witness : rowErr ∈ select_pending [rowErr] :=
  (select_pending_spec [rowErr] rowErr (by decide)).2.2.1 (by decide)

/-- A link present in the store stays present after any insertion. -/
theorem insert_or_ignore_keeps_link (db : List Row) (u v : String)
    (h : db.any (fun r => r.link = v) = true) :
    (insert_or_ignore db u).any (fun r => r.link = v) = true := by
  rw [insert_or_ignore]
  split
  · exact h
  · rw [List.any_append, h]
    rfl

/-- After inserting `u`, a row with link `u` is present. -/
theorem insert_or_ignore_self (db : List Row) (u : String) :
    (insert_or_ignore db u).any (fun r => r.link = u) = true := by
  rw [insert_or_ignore]
  split
  · assumption
  · rw [List.any_append]
    simp [blankRow]

/-- Bulk insertion preserves presence of a link. -/
theorem add_urls_keeps_link : ∀ (us : List String) (db : List Row) (v : String),
    db.any (fun r => r.link = v) = true →
    (add_urls_to_database db us).any (fun r => r.link = v) = true
  | [], _, _, h => h
  | u :: us, db, v, h =>
    add_urls_keeps_link us (insert_or_ignore db u) v (insert_or_ignore_keeps_link db u v h)

/-- After a bulk insertion every inserted link is present. -/
theorem add_urls_link_present : ∀ (us : List String) (db : List Row) (u : String), u ∈ us →
    (add_urls_to_database db us).any (fun r => r.link = u) = true
  | [], _, u, h => absurd h (List.not_mem_nil u)
  | v :: us, db, u, h => by
    rcases List.mem_cons.1 h with h1 | h1
    · subst h1
      exact add_urls_keeps_link us (insert_or_ignore db u) u (insert_or_ignore_self db u)
    · exact add_urls_link_present us (insert_or_ignore db v) u h1

/-- Bulk insertion of links that are all already present is the identity. -/
theorem add_urls_noop : ∀ (us : List String) (db : List Row),
    (∀ u ∈ us, db.any (fun r => r.link = u) = true) → add_urls_to_database db us = db
  | [], _, _ => rfl
  | v :: us, db, h => by
    have hv : insert_or_ignore db v = db := by
      rw [insert_or_ignore, if_pos (h v (List.mem_cons_self v us))]
    show add_urls_to_database (insert_or_ignore db v) us = db
    rw [hv]
    exact add_urls_noop us db (fun u hu => h u (List.mem_cons_of_mem v hu))

/-- One insertion never brings a link to more than one row. -/
theorem insert_or_ignore_countP (db : List Row) (u v : String)
    (h : db.countP (fun r => r.link = v) ≤ 1) :
    (insert_or_ignore db u).countP (fun r => r.link = v) ≤ 1 := by
  rw [insert_or_ignore]
  split
  · exact h
  · next hne =>
    rw [List.countP_append]
    by_cases hv : u = v
    · subst hv
      have h0 : db.countP (fun r => r.link = u) = 0 := by
        rw [List.countP_eq_zero]
        intro r hr hp
        exact hne (List.any_eq_true.2 ⟨r, hr, hp⟩)
      rw [h0]
      simp [List.countP_cons, blankRow]
    · have h1 : List.countP (fun r => decide (r.link = v)) [blankRow u] = 0 := by
        simp [List.countP_cons, blankRow, hv]
      rw [h1]
      omega

/-- Bulk insertion never brings a link to more than one row. -/
theorem add_urls_countP : ∀ (us : List String) (db : List Row) (v : String),
    db.countP (fun r => r.link = v) ≤ 1 →
    (add_urls_to_database db us).countP (fun r => r.link = v) ≤ 1
  | [], _, _, h => h
  | u :: us, db, v, h =>
    add_urls_countP us (insert_or_ignore db u) v (insert_or_ignore_countP db u v h)

/-- C6: inserting a URL that already has a row is a no-op leaving the
whole store (every field of every row) unchanged; inserting the same list
of URLs twice yields the same store as inserting it once; and a store
whose links are unique — at most one row per link — keeps that property
through any bulk insertion, so no URL ever gets a second row. -/
theorem insert_urls_idempotent :
    (∀ (db : List Row) (u : String), db.any (fun r => r.link = u) = true →
      insert_or_ignore db u = db) ∧
    (∀ (db : List Row) (us : List String),
      add_urls_to_database (add_urls_to_database db us) us = add_urls_to_database db us) ∧
    (∀ (db : List Row) (us : List String) (v : String),
      db.countP (fun r => r.link = v) ≤ 1 →
      (add_urls_to_database db us).countP (fun r => r.link = v) ≤ 1) := by
  refine ⟨?_, ?_, ?_⟩
  · intro db u h
    rw [insert_or_ignore, if_pos h]
  · intro db us
    exact add_urls_noop us (add_urls_to_database db us)
      (fun u hu => add_urls_link_present us db u hu)
  · intro db us v h
    exact add_urls_countP us db v h

/-- Witness for C6: re-inserting the link `a` changes nothing, and bulk
inserting a list with a repeated link into the empty store leaves at most
one row for it. -/
theorem insert_urls_idempotent_witness :
    insert_or_ignore [blankRow "a"] "a" = [blankRow "a"] ∧
    (add_urls_to_database [] ["a", "b", "a"]).countP (fun r => r.link = "a") ≤ 1 :=
  ⟨insert_urls_idempotent.1 [blankRow "a"] "a" (by decide),
   insert_urls_idempotent.2.2 [] ["a", "b", "a"] "a" (by decide)⟩

/-- Counterexample to C3 as stated: the export of a one-row store does not
have exactly the five claimed columns — `SELECT *` serializes a sixth
column, `scraped_at`. -/
theorem export_five_columns_counterexample :
    (export_db_to_csv [blankRow "u1"]).1.length ≠ 5 ∧
    "scraped_at" ∈ (export_db_to_csv [blankRow "u1"]).1 := by
  constructor
  · decide
  · decide

/-- C3 amended: `export_db_to_csv` serializes one row per stored record in
store order; the header is the full `products` column list, whose first
five columns are the URL (`link`), derived name (`product_name`), `price`,
`discount` and `error` in that order, followed by one extra column,
`scraped_at`; each data row carries exactly those six fields of its
record, in that order. -/
theorem export_all_shape (db : List Row) :
    (export_db_to_csv db).1 = products_columns ∧
    (export_db_to_csv db).1.take 5 = ["link", "product_name", "price", "discount", "error"] ∧
    (export_db_to_csv db).2.length = db.length ∧
    ∀ (i : Nat) (h : i < db.length),
      (export_db_to_csv db).2[i]? =
        some [some (db.get ⟨i, h⟩).link, (db.get ⟨i, h⟩).product_name,
              (db.get ⟨i, h⟩).price, (db.get ⟨i, h⟩).discount, (db.get ⟨i, h⟩).error,
              (db.get ⟨i, h⟩).scraped_at.map (fun t => toString t)] := by
  refine ⟨rfl, rfl, by simp [export_db_to_csv], ?_⟩
  intro i h
  show (db.map rowToCsv)[i]? = _
  rw [List.getElem?_map, List.getElem?_eq_getElem h]
  rw [List.get_eq_getElem]
  rfl

/-- Witness for C3 (amended): the export of a one-row store. -/
theorem export_all_shape_witness :
    (export_db_to_csv [blankRow "u1"]).2[0]? =
      some [some "u1", none, none, none, none, none] :=
  (export_all_shape [blankRow "u1"]).2.2.2 0 (by decide)

/-- Counterexample to C4 as stated: in the multi-worker pipeline the first
accepted discount match keeps its surrounding parentheses and minus sign —
`extract_discount` of `get_product_details.py` returns `(-30%)` verbatim
instead of normalizing it. -/
theorem discount_not_normalized_counterexample :
    extract_discount pageDisc = "(-30%)" ∧
    '(' ∈ (extract_discount pageDisc).data ∧
    '-' ∈ (extract_discount pageDisc).data ∧
    extract_discount pageDisc ≠ stripParensMinus (extract_discount pageDisc) := by
  refine ⟨by decide, by decide, by decide, by decide⟩

/-- C4 amended: both discount cascades try their strategies in fixed
order, but they differ: in `get_product_details.py` the first non-empty
match wins with only whitespace collapsed (no parenthesis/minus stripping)
and the discount is extracted exactly once, with no retry; only in the
`add_urls_to_db.py` variant is a match accepted when it has a percent sign
or digit, stripped of every parenthesis and minus sign, and — if the
first pass is empty — re-extracted exactly once after one extra
brief-wait clock tick. -/
theorem discount_cascades :
    (∀ (page : PageView) (b : By) (s : String) (rest : List (By × String)),
      (try_find page b s = "" → discountLoop page ((b, s) :: rest) = discountLoop page rest) ∧
      (try_find page b s ≠ "" →
        discountLoop page ((b, s) :: rest) = normalizeWs (try_find page b s))) ∧
    (∀ (url : String) (page : Nat → PageView),
      (scrapeBody url page).discount = extract_discount (page 0)) ∧
    (∀ (page : PageView) (b : By) (s : String) (rest : List (By × String)),
      ((try_find page b s ≠ "" &&
          ((try_find page b s).data.contains '%' || hasDigit (try_find page b s))) = true →
        AddUrls.discountLoop page ((b, s) :: rest) = stripParensMinus (try_find page b s)) ∧
      ((try_find page b s ≠ "" &&
          ((try_find page b s).data.contains '%' || hasDigit (try_find page b s))) = false →
        AddUrls.discountLoop page ((b, s) :: rest) = AddUrls.discountLoop page rest)) ∧
    (∀ (url : String) (page : Nat → PageView),
      (AddUrls.scrapeBody url page).discount =
        (if AddUrls.extract_discount (page 0) = ""
         then AddUrls.extract_discount (page ((AddUrls.pricePhase page).2 + 1))
         else AddUrls.extract_discount (page 0))) := by
  refine ⟨?_, ?_, ?_, ?_⟩
  · intro page b s rest
    constructor
    · intro h
      rw [discountLoop_cons, if_pos h]
    · intro h
      rw [discountLoop_cons, if_neg h]
  · intro url page
    rfl
  · intro page b s rest
    constructor
    · intro h
      rw [AddUrls.discount_step, h]
      simp
    · intro h
      rw [AddUrls.discount_step, h]
      simp
  · intro url page
    rfl

/-- Witness for C4 (amended): on a page whose discount element reads
`(-30%)`, the pipeline cascade returns it with parentheses intact, and the
other script's cascade strips them. -/
theorem discount_cascades_witness :
    discountLoop pageDisc [(By.css, "span.savingsPercentage")] =
      normalizeWs (try_find pageDisc By.css "span.savingsPercentage") ∧
    AddUrls.discountLoop pageDisc [(By.css, "span.savingsPercentage")] =
      stripParensMinus (try_find pageDisc By.css "span.savingsPercentage") :=
  ⟨(discount_cascades.1 pageDisc By.css "span.savingsPercentage" []).2 (by decide),
   (discount_cascades.2.2.1 pageDisc By.css "span.savingsPercentage" []).1 (by decide)⟩

/-- C1: evidence of the divergence.  On a page that opens successfully and
yields a title and a price, the worker's result has `error` equal to the
empty string — not NULL — so `update_db_record` stores a non-NULL empty
text in the `error` column, and the freshly written successful row is
selected again by `load_urls_from_db` (whose own comment says it selects
links "that have not been scraped or had a previous error"). -/
theorem success_stores_empty_error :
    (scrape_one "u1" none none (fun _ => pageWidget)).product_name = "Widget" ∧
    (scrape_one "u1" none none (fun _ => pageWidget)).Price = "$9.99" ∧
    (scrape_one "u1" none none (fun _ => pageWidget)).error = "" ∧
    (update_db_record [blankRow "u1"] (scrape_one "u1" none none (fun _ => pageWidget)) 5).map
        (fun r => r.error) = [some ""] ∧
    load_urls_from_db
        (update_db_record [blankRow "u1"] (scrape_one "u1" none none (fun _ => pageWidget)) 5) =
      ["u1"] := by
  refine ⟨by decide, by decide, by decide, by decide, by decide⟩
